import Mathlib

/-!
# social_network_project: comment handlers and the dynamic account update query

A shallow embedding of `api/handler/comments.go` (the four gin handlers
`CreateComment`, `GetComment`, `UpdateComment`, `DeleteComment` and
`CreateCommentStruct`) together with the pieces of the Go standard library they
rely on (`strconv.ParseInt`, `gin.Context.DefaultQuery`).

A handler is a function from the collaborators it calls (token decoding, body
reading, validation, controller, cache), the request and the cache state to an
`Outcome`: the HTTP response written (if any), whether `log.Fatal` halted the
process, the ordered trace of the effects performed, and the final cache state.
-/

namespace SocialNetwork

/-! ## Data model -/

/-- Dynamic type of a Go `error` value, as far as the handlers' type switches
distinguish it (`social_network_project/controllers/errors`); `other` stands for
every other error type. -/
inductive ErrorKind where
  | NotFoundAccountIDError
  | NotFoundPostIDError
  | NotFoundCommentIDError
  | UnauthorizedAccountIDError
  | CacheNotFoundError
  | other
  deriving DecidableEq, Repr

/-- A non-nil Go `error`: its dynamic type and the text `err.Error()` returns. -/
structure GoError where
  kind : ErrorKind
  text : String
  deriving DecidableEq, Repr

/-- The type `sql.NullString`. -/
structure NullString where
  Str : String
  Valid : Bool
  deriving DecidableEq, Repr

/-- The fields of `entities.Comment` that `CreateCommentStruct` sets. -/
structure Comment where
  ID : String
  AccountID : String
  PostID : String
  CommentID : NullString
  Content : String
  CreatedAt : String
  UpdatedAt : String
  Removed : Bool
  deriving DecidableEq, Repr

/-- What a handler reads from `*gin.Context`. -/
structure Request where
  /-- Lookup `c.Request.Header.Get`: the empty string when the header is absent. -/
  Header : String → String
  /-- Path parameters, read by `c.Param`. -/
  Params : List (String × String)
  /-- Parsed query string, read by `c.DefaultQuery`. -/
  Query : List (String × String)
  /-- Raw request body `c.Request.Body`. -/
  Body : String

/-- Values produced by `uuid.New()` and by the two `time.Now()` reads of
`CreateCommentStruct`, already formatted. -/
structure Clock where
  uuid : String
  createdAt : String
  updatedAt : String

/-- The object handed to `c.JSON`; `V` is the type of Go `interface{}` payloads. -/
inductive Body (V : Type) where
  /-- The map `gin.H` with the single key `Message`. -/
  | message (text : String)
  /-- The map with the single key `errors`. -/
  | errors (detail : V)
  /-- The value `comment.ToResponse()`. -/
  | commentResponse (c : Comment)
  /-- Any other payload. -/
  | value (v : V)
  deriving DecidableEq, Repr

/-- An HTTP response written with `c.JSON`. -/
structure Response (V : Type) where
  status : Nat
  body : Body V
  deriving DecidableEq, Repr

/-- Effects a handler performs, in program order. -/
inductive Event where
  | decodeToken (token : String)
  | readBody
  | logPrintln (text : String)
  | findInCache
  | insertCache
  | validateStruct (c : Comment)
  | insertComment (c : Comment)
  | findCommentsByAccountID (accountID idToGet postID commentID page : String)
  | updateCommentDataByID (c : Comment)
  | removeCommentByID (c : Comment)
  | logFatal (text : String)
  deriving DecidableEq, Repr

/-- Result of running a handler. -/
structure Outcome (V K : Type) where
  /-- The response written by `c.JSON`, if one was written. -/
  response : Option (Response V)
  /-- Whether `log.Fatal` terminated the process. -/
  halted : Bool
  /-- The effects performed, oldest first. -/
  trace : List Event
  /-- The cache state when the handler stops. -/
  cache : K

/-- The receiver `CommentsAPI` with everything its methods call: the environment
variable, the `utils` helpers, the validator, the controller and the cache
package. `V` is the type of `interface{}` payloads and `K` the state of the
store behind `RedisClient`. A Go result pair `(x, err)` is a pair whose second
component is `none` for a nil error. -/
structure CommentsAPI (V K : Type) where
  /-- The value `os.Getenv("JWT_TOKEN_HEADER")`. -/
  JWT_TOKEN_HEADER : String
  DecodeTokenAndReturnID : String → String × Option GoError
  /-- The map returned is read with `mapBody[key]`; `none` is the nil interface. -/
  ReadBodyAndReturnMapBody : String → (String → Option V) × Option GoError
  StringNullable : Option V → String
  NewNullString : String → NullString
  /-- The call `a.Validate.Struct`. -/
  ValidateStruct : Comment → Option GoError
  RequestCommentValidate : GoError → V
  InsertComment : Comment → Option GoError
  FindCommentsByAccountID : String → String → String → String → String → V × Option GoError
  UpdateCommentDataByID : Comment → V × Option GoError
  RemoveCommentByID : Comment → V × Option GoError
  /-- The call `cache.FindInCache(c.Request, a.RedisClient)`. -/
  FindInCache : Request → K → V × Option GoError
  /-- The call `cache.InsertCache(c.Request, comments, a.RedisClient)`. -/
  InsertCache : Request → V → K → K

/-! ## HTTP status codes (`net/http`) -/

def StatusOK : Nat := 200
def StatusBadRequest : Nat := 400
def StatusUnauthorized : Nat := 401
def StatusNotFound : Nat := 404

/-! ## `strconv.ParseInt(s, 10, 64)` -/

/-- The two sentinel errors of `strconv`. -/
inductive NumError where
  | ErrSyntax
  | ErrRange
  deriving DecidableEq, Repr

/-- The constant `maxUint64`. -/
def maxUint64 : Nat := 2 ^ 64 - 1

/-- The digit loop of `strconv.ParseUint` for base 10 and bit size 64, with
`n` the accumulator (a `uint64`). A letter is a digit value of at least 10 and
so a base-10 `ErrSyntax`, like any other byte that is not a decimal digit. -/
def parseUintLoop : List Char → Nat → Except NumError Nat
  | [], n => .ok n
  | c :: cs, n =>
    if '0' ≤ c ∧ c ≤ '9' then
      let d := c.toNat - '0'.toNat
      if n ≥ maxUint64 / 10 + 1 then .error .ErrRange
      else
        let m := (n * 10) % 2 ^ 64
        let n1 := (m + d) % 2 ^ 64
        if n1 < m ∨ n1 > maxUint64 then .error .ErrRange
        else parseUintLoop cs n1
    else .error .ErrSyntax

/-- The function `strconv.ParseUint(s, 10, 64)` on the bytes of `s`. -/
def ParseUint (s : List Char) : Except NumError Nat :=
  match s with
  | [] => .error .ErrSyntax
  | _ => parseUintLoop s 0

/-- The function `strconv.ParseInt(s, 10, 64)` on the bytes of `s`. -/
def ParseIntChars (s : List Char) : Except NumError Int :=
  match s with
  | [] => .error .ErrSyntax
  | c :: cs =>
    let neg := c == '-'
    let rest := if c == '+' ∨ c == '-' then cs else c :: cs
    match ParseUint rest with
    | .error e => .error e
    | .ok un =>
      if !neg ∧ un ≥ 2 ^ 63 then .error .ErrRange
      else if neg ∧ un > 2 ^ 63 then .error .ErrRange
      else .ok (if neg then - (un : Int) else (un : Int))

/-- The function `strconv.ParseInt(s, 10, 64)`. -/
def ParseInt (s : String) : Except NumError Int := ParseIntChars s.toList

/-- A string is numeric when it is an optional sign `+` or `-` followed by at
least one decimal digit and nothing else. -/
def isNumeric (s : String) : Bool :=
  match s.toList with
  | [] => false
  | c :: cs =>
    let ds := if c = '+' ∨ c = '-' then cs else c :: cs
    !ds.isEmpty && ds.all (fun d => decide ('0' ≤ d ∧ d ≤ '9'))

/-! ## `gin.Context` accessors -/

/-- The method `c.Param`: the empty string when the parameter is absent. -/
def Param (c : Request) (key : String) : String :=
  (c.Params.lookup key).getD ""

/-- The method `c.DefaultQuery`: the first value of `key`, or `defaultValue`
when the query has no such key. -/
def DefaultQuery (c : Request) (key defaultValue : String) : String :=
  (c.Query.lookup key).getD defaultValue

/-! ## Handlers (`api/handler/comments.go`) -/

/-- The function `CreateCommentStruct`. -/
def CreateCommentStruct {V K : Type} (a : CommentsAPI V K) (clk : Clock)
    (mapBody : String → Option V) (accountID postID : String) (commentID : NullString) :
    Comment :=
  { ID := clk.uuid
    AccountID := accountID
    PostID := postID
    CommentID := commentID
    Content := a.StringNullable (mapBody "content")
    CreatedAt := clk.createdAt
    UpdatedAt := clk.updatedAt
    Removed := false }

/-- A handler path that ends in `c.JSON(status, body); return`. -/
def respond {V K : Type} (tr : List Event) (k : K) (status : Nat) (body : Body V) :
    Outcome V K :=
  { response := some ⟨status, body⟩, halted := false, trace := tr, cache := k }

/-- A handler path that ends in `log.Fatal(err)`: the process exits and nothing
after the call runs. -/
def fatal {V K : Type} (tr : List Event) (k : K) (err : GoError) : Outcome V K :=
  { response := none, halted := true, trace := tr ++ [.logFatal err.text], cache := k }

/-- The events of `ReadBodyAndReturnMapBody` followed by `log.Println(err)` on
a non-nil error. -/
def readBodyEvents (err : Option GoError) : List Event :=
  match err with
  | some e => [.readBody, .logPrintln e.text]
  | none => [.readBody]

/-- The method `CommentsAPI.CreateComment`. -/
def CreateComment {V K : Type} (a : CommentsAPI V K) (clk : Clock) (c : Request) (k : K) :
    Outcome V K :=
  let token := c.Header a.JWT_TOKEN_HEADER
  match a.DecodeTokenAndReturnID token with
  | (_, some _) =>
    respond [.decodeToken token] k StatusUnauthorized (.message "Token Invalid")
  | (accountID, none) =>
    let postID := Param c "post"
    let commentID := DefaultQuery c "comment_id" ""
    let rb := a.ReadBodyAndReturnMapBody c.Body
    let comment := CreateCommentStruct a clk rb.1 accountID postID (a.NewNullString commentID)
    let tr := [.decodeToken token] ++ readBodyEvents rb.2 ++ [.validateStruct comment]
    match a.ValidateStruct comment with
    | some verr => respond tr k StatusBadRequest (.errors (a.RequestCommentValidate verr))
    | none =>
      let tr := tr ++ [.insertComment comment]
      match a.InsertComment comment with
      | some err =>
        match err.kind with
        | .NotFoundAccountIDError =>
          respond (tr ++ [.logPrintln err.text]) k StatusNotFound (.message err.text)
        | .NotFoundPostIDError =>
          respond (tr ++ [.logPrintln err.text]) k StatusNotFound (.message err.text)
        | .NotFoundCommentIDError =>
          respond (tr ++ [.logPrintln err.text]) k StatusNotFound (.message err.text)
        | _ => fatal tr k err
      | none => respond tr k StatusOK (.commentResponse comment)

/-- The method `CommentsAPI.GetComment`. -/
def GetComment {V K : Type} (a : CommentsAPI V K) (c : Request) (k : K) : Outcome V K :=
  let token := c.Header a.JWT_TOKEN_HEADER
  match a.DecodeTokenAndReturnID token with
  | (_, some _) =>
    respond [.decodeToken token] k StatusUnauthorized (.message "Token Invalid")
  | (accountID, none) =>
    let tr := [.decodeToken token, .findInCache]
    match a.FindInCache c k with
    | (_, some ⟨.CacheNotFoundError, text⟩) =>
      let tr := tr ++ [.logPrintln text]
      let idToGet := DefaultQuery c "account_id" ""
      let postID := DefaultQuery c "post_id" ""
      let commentID := DefaultQuery c "comment_id" ""
      let page := DefaultQuery c "page" "1"
      match ParseInt page with
      | .error _ => respond tr k StatusBadRequest (.message "Page is not a number")
      | .ok _ =>
        let tr := tr ++ [.findCommentsByAccountID accountID idToGet postID commentID page]
        match a.FindCommentsByAccountID accountID idToGet postID commentID page with
        | (_, some err) =>
          match err.kind with
          | .NotFoundAccountIDError =>
            respond (tr ++ [.logPrintln err.text]) k StatusNotFound (.message err.text)
          | .NotFoundPostIDError =>
            respond (tr ++ [.logPrintln err.text]) k StatusNotFound (.message err.text)
          | .NotFoundCommentIDError =>
            respond (tr ++ [.logPrintln err.text]) k StatusNotFound (.message err.text)
          | _ => fatal tr k err
        | (comments, none) =>
          respond (tr ++ [.insertCache]) (a.InsertCache c comments k) StatusOK (.value comments)
    | (resCache, _) =>
      respond (tr ++ [.logPrintln "Cache"]) k StatusOK (.value resCache)

/-- The method `CommentsAPI.UpdateComment`. -/
def UpdateComment {V K : Type} (a : CommentsAPI V K) (clk : Clock) (c : Request) (k : K) :
    Outcome V K :=
  let token := c.Header a.JWT_TOKEN_HEADER
  match a.DecodeTokenAndReturnID token with
  | (_, some _) =>
    respond [.decodeToken token] k StatusUnauthorized (.message "Token Invalid")
  | (accountID, none) =>
    let rb := a.ReadBodyAndReturnMapBody c.Body
    let postID := ""
    let commentID := ""
    let comment0 := CreateCommentStruct a clk rb.1 accountID postID (a.NewNullString commentID)
    let comment := { comment0 with ID := a.StringNullable (rb.1 "id") }
    let tr := [.decodeToken token] ++ readBodyEvents rb.2 ++ [.validateStruct comment]
    match a.ValidateStruct comment with
    | some verr => respond tr k StatusBadRequest (.errors (a.RequestCommentValidate verr))
    | none =>
      let tr := tr ++ [.updateCommentDataByID comment]
      match a.UpdateCommentDataByID comment with
      | (_, some err) =>
        match err.kind with
        | .UnauthorizedAccountIDError =>
          respond (tr ++ [.logPrintln err.text]) k StatusNotFound (.message err.text)
        | .NotFoundCommentIDError =>
          respond (tr ++ [.logPrintln err.text]) k StatusNotFound (.message err.text)
        | _ => fatal tr k err
      | (commentUpdated, none) => respond tr k StatusOK (.value commentUpdated)

/-- The method `CommentsAPI.DeleteComment`. -/
def DeleteComment {V K : Type} (a : CommentsAPI V K) (clk : Clock) (c : Request) (k : K) :
    Outcome V K :=
  let token := c.Header a.JWT_TOKEN_HEADER
  match a.DecodeTokenAndReturnID token with
  | (_, some _) =>
    respond [.decodeToken token] k StatusUnauthorized (.message "Token Invalid")
  | (accountID, none) =>
    let rb := a.ReadBodyAndReturnMapBody c.Body
    let postID := ""
    let commentID := ""
    let comment0 := CreateCommentStruct a clk rb.1 accountID postID (a.NewNullString commentID)
    let comment := { comment0 with ID := a.StringNullable (rb.1 "id"), Content := "--" }
    let tr := [.decodeToken token] ++ readBodyEvents rb.2 ++ [.validateStruct comment]
    match a.ValidateStruct comment with
    | some verr => respond tr k StatusBadRequest (.errors (a.RequestCommentValidate verr))
    | none =>
      let tr := tr ++ [.removeCommentByID comment]
      match a.RemoveCommentByID comment with
      | (_, some err) =>
        match err.kind with
        | .UnauthorizedAccountIDError =>
          respond (tr ++ [.logPrintln err.text]) k StatusNotFound (.message err.text)
        | .NotFoundCommentIDError =>
          respond (tr ++ [.logPrintln err.text]) k StatusNotFound (.message err.text)
        | _ => fatal tr k err
      | (commentToRemoved, none) => respond tr k StatusOK (.value commentToRemoved)

/-! ## Classification of trace events -/

/-- Cache accesses: `cache.FindInCache` and `cache.InsertCache`. -/
def Event.isCacheAccess : Event → Bool
  | .findInCache => true
  | .insertCache => true
  | _ => false

/-- Calls of `a.Validate.Struct`. -/
def Event.isValidation : Event → Bool
  | .validateStruct _ => true
  | _ => false

/-- Calls of a method of `a.Controller`. -/
def Event.isControllerCall : Event → Bool
  | .insertComment _ => true
  | .findCommentsByAccountID _ _ _ _ _ => true
  | .updateCommentDataByID _ => true
  | .removeCommentByID _ => true
  | _ => false

/-! ## A concrete deployment used to exercise the theorems -/

/-- A request carrying `token` in the `Authorization` header, the post `p1` as
path parameter, the given query and body. -/
def sampleRequest (token : String) (query : List (String × String)) (body : String) : Request :=
  { Header := fun name => if name = "Authorization" then token else ""
    Params := [("post", "p1")]
    Query := query
    Body := body }

/-- Fixed identifier and dates. -/
def sampleClock : Clock :=
  { uuid := "c-1", createdAt := "2022-08-01", updatedAt := "2022-08-01" }

/-- A deployment whose token decoder accepts exactly the token `tok-A` (account
`A`), whose body reader finds the body text under `content` and `c-7` under `id`,
whose validator accepts every comment, whose controller answers every
call with `ctl` and whose cache lookup finds `cached-page` when `cached` is
`none` and fails with the error `cached` otherwise. Payloads are
strings and the cache state is the list of inserted payloads. -/
def sampleAPI (ctl cached : Option GoError) : CommentsAPI String (List String) :=
  { JWT_TOKEN_HEADER := "Authorization"
    DecodeTokenAndReturnID := fun t =>
      if t = "tok-A" then ("A", none) else ("", some ⟨.other, "token is invalid"⟩)
    ReadBodyAndReturnMapBody := fun b =>
      (fun key => if key = "content" then some b else if key = "id" then some "c-7" else none,
        none)
    StringNullable := fun v => v.getD ""
    NewNullString := fun s => ⟨s, !s.isEmpty⟩
    ValidateStruct := fun _ => none
    RequestCommentValidate := fun e => e.text
    InsertComment := fun _ => ctl
    FindCommentsByAccountID := fun _ _ _ _ _ => ("comments", ctl)
    UpdateCommentDataByID := fun _ => ("updated", ctl)
    RemoveCommentByID := fun _ => ("removed", ctl)
    FindInCache := fun _ _ =>
      match cached with
      | none => ("cached-page", none)
      | some e => ("", some e)
    InsertCache := fun _ v k => v :: k }

/-- The comment `UpdateComment` builds in the sample deployment for account `A`
and the body `hello`. -/
def sampleUpdated : Comment :=
  ⟨"c-7", "A", "", ⟨"", false⟩, "hello", "2022-08-01", "2022-08-01", false⟩

/-- The comment `DeleteComment` builds in the sample deployment for account `A`. -/
def sampleRemoved : Comment :=
  ⟨"c-7", "A", "", ⟨"", false⟩, "--", "2022-08-01", "2022-08-01", false⟩

/-- The comment `CreateComment` builds in the sample deployment for account `A`
and the body `hello`. -/
def sampleCreated : Comment :=
  ⟨"c-1", "A", "p1", ⟨"", false⟩, "hello", "2022-08-01", "2022-08-01", false⟩

/-! ## The dynamic update query of the account repository -/

/-- The builtin `len` of Go on a string: its number of bytes. -/
def len (s : String) : Nat := s.utf8ByteSize

/-- The function `strings.Join`: the elements with `sep` written between
consecutive ones. -/
def Join (elems : List String) (sep : String) : String :=
  match elems with
  | [] => ""
  | e :: rest => rest.foldl (fun b s => b ++ sep ++ s) e

/-- The assignment text `fmt.Sprintf` builds from a field name and the `%s`
rendering of its value: the name in double quotes, the value in single
quotes. -/
def assignment (key value : String) : String :=
  "\"" ++ key ++ "\" = '" ++ value ++ "'"

/-- Modelled from the spec: `dinamicQueryChangeAccountDataByID` of
`database/repository`, of which only the test is among the sources. Given the
entries of the mapping in the order its iteration visits them, it builds an
UPDATE statement on `account` that lists one assignment per supplied field, in
that order, separated by a comma and a blank, and is scoped by the target id
and `deleted = false`. -/
def dinamicQueryChangeAccountDataByID (mapBody : List (String × String)) : String :=
  "UPDATE account SET " ++ Join (mapBody.map (fun kv => assignment kv.1 kv.2)) ", " ++
    " WHERE id = $1 AND deleted = false"

/-- The string `stringQueryExpected` of
`TestAccountRepository_dinamicQueryChangeAccountDataByID`: the loop appends one
assignment per entry to the slice `where`, in the order `body` lists them for
the test, and the slice is joined between the two fixed parts. -/
def stringQueryExpected (body : List (String × String)) : String :=
  let whereClause := body.foldl (fun acc kv => acc ++ [assignment kv.1 kv.2]) []
  "UPDATE account SET " ++ Join whereClause ", " ++ " WHERE id = $1 AND deleted = false"

/-- The mapping `body` of the repository test, in the order the test file
writes it. -/
def body : List (String × String) :=
  [("username", "maciel"),
   ("name", "Nicole Miguel Maciel "),
   ("description",
     "Lorem ipsum dolor sit amet, consectetur adipiscing elit. Integer porta vehicula purus bibendum pretium."),
   ("email", "ralph333@gmail.com"),
   ("password", "2222")]

/-! ## Theorems -/

/-- C1: in each of the four comment handlers, a request whose token
`DecodeTokenAndReturnID` rejects is answered with status 401 and the body
`Message: Token Invalid`; the only effect performed is the token decoding, so
there is no cache access, no validation and no controller call, and the cache
is left as it was. -/
theorem invalid_token_unauthorized {V K : Type} (a : CommentsAPI V K) (clk : Clock)
    (c : Request) (k : K)
    (h : (a.DecodeTokenAndReturnID (c.Header a.JWT_TOKEN_HEADER)).2 ≠ none) :
    ∀ out ∈ [CreateComment a clk c k, GetComment a c k, UpdateComment a clk c k,
        DeleteComment a clk c k],
      out.response = some ⟨401, .message "Token Invalid"⟩ ∧
      out.halted = false ∧
      out.trace = [.decodeToken (c.Header a.JWT_TOKEN_HEADER)] ∧
      (∀ e ∈ out.trace, e.isCacheAccess = false ∧ e.isValidation = false ∧
        e.isControllerCall = false) ∧
      out.cache = k := by
  rcases hd : a.DecodeTokenAndReturnID (c.Header a.JWT_TOKEN_HEADER) with ⟨id, _ | e⟩
  · simp [hd] at h
  · intro out hout
    simp only [List.mem_cons, List.mem_singleton, List.not_mem_nil, or_false] at hout
    rcases hout with rfl | rfl | rfl | rfl <;>
      simp [CreateComment, GetComment, UpdateComment, DeleteComment, hd, respond,
        StatusUnauthorized, Event.isCacheAccess, Event.isValidation, Event.isControllerCall]

/-- Witness for C1: the sample deployment rejects the token `bad`, and each
handler answers 401 after the token decoding alone. -/
theorem invalid_token_unauthorized_witness :
    ((CreateComment (sampleAPI none none) sampleClock (sampleRequest "bad" [] "hello")
        []).response = some ⟨401, .message "Token Invalid"⟩ ∧
      (CreateComment (sampleAPI none none) sampleClock (sampleRequest "bad" [] "hello")
        []).trace = [.decodeToken "bad"]) ∧
    ((GetComment (sampleAPI none none) (sampleRequest "bad" [] "hello")
        []).response = some ⟨401, .message "Token Invalid"⟩ ∧
      (GetComment (sampleAPI none none) (sampleRequest "bad" [] "hello")
        []).trace = [.decodeToken "bad"]) ∧
    ((UpdateComment (sampleAPI none none) sampleClock (sampleRequest "bad" [] "hello")
        []).response = some ⟨401, .message "Token Invalid"⟩ ∧
      (UpdateComment (sampleAPI none none) sampleClock (sampleRequest "bad" [] "hello")
        []).trace = [.decodeToken "bad"]) ∧
    ((DeleteComment (sampleAPI none none) sampleClock (sampleRequest "bad" [] "hello")
        []).response = some ⟨401, .message "Token Invalid"⟩ ∧
      (DeleteComment (sampleAPI none none) sampleClock (sampleRequest "bad" [] "hello")
        []).trace = [.decodeToken "bad"]) :=
  have h := invalid_token_unauthorized (sampleAPI none none) sampleClock
    (sampleRequest "bad" [] "hello") [] (by decide)
  ⟨have r := h (CreateComment (sampleAPI none none) sampleClock
      (sampleRequest "bad" [] "hello") []) (by simp);
    ⟨r.1, r.2.2.1⟩,
   have r := h (GetComment (sampleAPI none none) (sampleRequest "bad" [] "hello") [])
      (by simp);
    ⟨r.1, r.2.2.1⟩,
   have r := h (UpdateComment (sampleAPI none none) sampleClock
      (sampleRequest "bad" [] "hello") []) (by simp);
    ⟨r.1, r.2.2.1⟩,
   have r := h (DeleteComment (sampleAPI none none) sampleClock
      (sampleRequest "bad" [] "hello") []) (by simp);
    ⟨r.1, r.2.2.1⟩⟩

/-! ### What each handler does once its controller has been called -/

/-- Once `CreateComment` has called `InsertComment` on `x`, the response and
the halting flag are determined by the result of that call. -/
theorem CreateComment_after_controller {V K : Type} (a : CommentsAPI V K) (clk : Clock)
    (c : Request) (k : K) (x : Comment)
    (hx : Event.insertComment x ∈ (CreateComment a clk c k).trace) :
    (∀ e, a.InsertComment x = some e →
      (e.kind = .NotFoundAccountIDError ∨ e.kind = .NotFoundPostIDError ∨
          e.kind = .NotFoundCommentIDError →
        (CreateComment a clk c k).response = some ⟨404, .message e.text⟩ ∧
        (CreateComment a clk c k).halted = false) ∧
      (e.kind ≠ .NotFoundAccountIDError → e.kind ≠ .NotFoundPostIDError →
          e.kind ≠ .NotFoundCommentIDError →
        (CreateComment a clk c k).response = none ∧
        (CreateComment a clk c k).halted = true ∧
        Event.logFatal e.text ∈ (CreateComment a clk c k).trace)) ∧
    (a.InsertComment x = none →
      (CreateComment a clk c k).response = some ⟨200, .commentResponse x⟩ ∧
      (CreateComment a clk c k).halted = false) := by
  rcases hd : a.DecodeTokenAndReturnID (c.Header a.JWT_TOKEN_HEADER) with ⟨A, _ | e⟩
  · simp only [CreateComment, hd] at hx ⊢
    cases hrb : (a.ReadBodyAndReturnMapBody c.Body).2 <;>
      simp only [hrb, readBodyEvents] at hx <;>
      (repeat' split at hx) <;>
      simp_all [respond, fatal, StatusNotFound, StatusOK]
  · simp [CreateComment, hd, respond] at hx

/-- Once `GetComment` has called `FindCommentsByAccountID`, the response and the
halting flag are determined by the result of that call. -/
theorem GetComment_after_controller {V K : Type} (a : CommentsAPI V K)
    (c : Request) (k : K) (acc idToGet postID commentID page : String)
    (hx : Event.findCommentsByAccountID acc idToGet postID commentID page ∈
      (GetComment a c k).trace) :
    (∀ v e, a.FindCommentsByAccountID acc idToGet postID commentID page = (v, some e) →
      (e.kind = .NotFoundAccountIDError ∨ e.kind = .NotFoundPostIDError ∨
          e.kind = .NotFoundCommentIDError →
        (GetComment a c k).response = some ⟨404, .message e.text⟩ ∧
        (GetComment a c k).halted = false) ∧
      (e.kind ≠ .NotFoundAccountIDError → e.kind ≠ .NotFoundPostIDError →
          e.kind ≠ .NotFoundCommentIDError →
        (GetComment a c k).response = none ∧
        (GetComment a c k).halted = true ∧
        Event.logFatal e.text ∈ (GetComment a c k).trace)) ∧
    (∀ v, a.FindCommentsByAccountID acc idToGet postID commentID page = (v, none) →
      (GetComment a c k).response = some ⟨200, .value v⟩ ∧
      (GetComment a c k).halted = false) := by
  rcases hd : a.DecodeTokenAndReturnID (c.Header a.JWT_TOKEN_HEADER) with ⟨A, _ | e⟩
  · simp only [GetComment, hd] at hx ⊢
    (repeat' split at hx) <;>
      simp_all [respond, fatal, StatusNotFound, StatusOK]
  · simp [GetComment, hd, respond] at hx

/-- Once `UpdateComment` has called `UpdateCommentDataByID` on `x`, the response
and the halting flag are determined by the result of that call. -/
theorem UpdateComment_after_controller {V K : Type} (a : CommentsAPI V K) (clk : Clock)
    (c : Request) (k : K) (x : Comment)
    (hx : Event.updateCommentDataByID x ∈ (UpdateComment a clk c k).trace) :
    (∀ v e, a.UpdateCommentDataByID x = (v, some e) →
      (e.kind = .UnauthorizedAccountIDError ∨ e.kind = .NotFoundCommentIDError →
        (UpdateComment a clk c k).response = some ⟨404, .message e.text⟩ ∧
        (UpdateComment a clk c k).halted = false) ∧
      (e.kind ≠ .UnauthorizedAccountIDError → e.kind ≠ .NotFoundCommentIDError →
        (UpdateComment a clk c k).response = none ∧
        (UpdateComment a clk c k).halted = true ∧
        Event.logFatal e.text ∈ (UpdateComment a clk c k).trace)) ∧
    (∀ v, a.UpdateCommentDataByID x = (v, none) →
      (UpdateComment a clk c k).response = some ⟨200, .value v⟩ ∧
      (UpdateComment a clk c k).halted = false) := by
  rcases hd : a.DecodeTokenAndReturnID (c.Header a.JWT_TOKEN_HEADER) with ⟨A, _ | e⟩
  · simp only [UpdateComment, hd] at hx ⊢
    cases hrb : (a.ReadBodyAndReturnMapBody c.Body).2 <;>
      simp only [hrb, readBodyEvents] at hx <;>
      (repeat' split at hx) <;>
      simp_all [respond, fatal, StatusNotFound, StatusOK]
  · simp [UpdateComment, hd, respond] at hx

/-- Once `DeleteComment` has called `RemoveCommentByID` on `x`, the response and
the halting flag are determined by the result of that call. -/
theorem DeleteComment_after_controller {V K : Type} (a : CommentsAPI V K) (clk : Clock)
    (c : Request) (k : K) (x : Comment)
    (hx : Event.removeCommentByID x ∈ (DeleteComment a clk c k).trace) :
    (∀ v e, a.RemoveCommentByID x = (v, some e) →
      (e.kind = .UnauthorizedAccountIDError ∨ e.kind = .NotFoundCommentIDError →
        (DeleteComment a clk c k).response = some ⟨404, .message e.text⟩ ∧
        (DeleteComment a clk c k).halted = false) ∧
      (e.kind ≠ .UnauthorizedAccountIDError → e.kind ≠ .NotFoundCommentIDError →
        (DeleteComment a clk c k).response = none ∧
        (DeleteComment a clk c k).halted = true ∧
        Event.logFatal e.text ∈ (DeleteComment a clk c k).trace)) ∧
    (∀ v, a.RemoveCommentByID x = (v, none) →
      (DeleteComment a clk c k).response = some ⟨200, .value v⟩ ∧
      (DeleteComment a clk c k).halted = false) := by
  rcases hd : a.DecodeTokenAndReturnID (c.Header a.JWT_TOKEN_HEADER) with ⟨A, _ | e⟩
  · simp only [DeleteComment, hd] at hx ⊢
    cases hrb : (a.ReadBodyAndReturnMapBody c.Body).2 <;>
      simp only [hrb, readBodyEvents] at hx <;>
      (repeat' split at hx) <;>
      simp_all [respond, fatal, StatusNotFound, StatusOK]
  · simp [DeleteComment, hd, respond] at hx

/-- With a decoded token and a comment the validator accepts, the controller is
called: the trace of each mutating handler holds its controller event. -/
theorem controller_called_of_valid {V K : Type} (a : CommentsAPI V K) (clk : Clock)
    (c : Request) (k : K) (A : String)
    (h : a.DecodeTokenAndReturnID (c.Header a.JWT_TOKEN_HEADER) = (A, none))
    (hv : ∀ x, a.ValidateStruct x = none) :
    (∃ x, Event.insertComment x ∈ (CreateComment a clk c k).trace) ∧
    (∃ x, Event.updateCommentDataByID x ∈ (UpdateComment a clk c k).trace) ∧
    (∃ x, Event.removeCommentByID x ∈ (DeleteComment a clk c k).trace) := by
  refine ⟨?_, ?_, ?_⟩
  · simp only [CreateComment, h, hv]
    (repeat' split) <;> simp_all [respond, fatal]
  · simp only [UpdateComment, h, hv]
    (repeat' split) <;> simp_all [respond, fatal]
  · simp only [DeleteComment, h, hv]
    (repeat' split) <;> simp_all [respond, fatal]

/-! ### Claims about the controller call and its errors -/

/-- C2: with a token that decodes to account `A`, whatever the request body and
whatever map is read from it, every comment that `CreateComment`,
`UpdateComment` or `DeleteComment` hands to the controller has `AccountID = A`,
and the controller is called whenever validation accepts the comment; when
`InsertComment` succeeds on the comment it was handed, `CreateComment` answers
200 with the response form of that comment, whose `AccountID` is `A`. -/
theorem controller_comment_account_is_requester {V K : Type} (a : CommentsAPI V K)
    (clk : Clock) (c : Request) (k : K) (A : String)
    (h : a.DecodeTokenAndReturnID (c.Header a.JWT_TOKEN_HEADER) = (A, none)) :
    (∀ x, Event.insertComment x ∈ (CreateComment a clk c k).trace → x.AccountID = A) ∧
    (∀ x, Event.updateCommentDataByID x ∈ (UpdateComment a clk c k).trace →
      x.AccountID = A) ∧
    (∀ x, Event.removeCommentByID x ∈ (DeleteComment a clk c k).trace → x.AccountID = A) ∧
    ((∀ x, a.ValidateStruct x = none) →
      (∃ x, Event.insertComment x ∈ (CreateComment a clk c k).trace) ∧
      (∃ x, Event.updateCommentDataByID x ∈ (UpdateComment a clk c k).trace) ∧
      (∃ x, Event.removeCommentByID x ∈ (DeleteComment a clk c k).trace)) ∧
    (∀ x, Event.insertComment x ∈ (CreateComment a clk c k).trace →
      a.InsertComment x = none →
      (CreateComment a clk c k).response = some ⟨200, .commentResponse x⟩ ∧
      x.AccountID = A) := by
  have h1 : ∀ x, Event.insertComment x ∈ (CreateComment a clk c k).trace →
      x.AccountID = A := by
    intro x hx
    simp only [CreateComment, h] at hx
    cases hrb : (a.ReadBodyAndReturnMapBody c.Body).2 <;>
      simp only [hrb, readBodyEvents] at hx <;>
      (repeat' split at hx) <;>
      simp_all [respond, fatal, CreateCommentStruct]
  refine ⟨h1, ?_, ?_, ?_, ?_⟩
  · intro x hx
    simp only [UpdateComment, h] at hx
    cases hrb : (a.ReadBodyAndReturnMapBody c.Body).2 <;>
      simp only [hrb, readBodyEvents] at hx <;>
      (repeat' split at hx) <;>
      simp_all [respond, fatal, CreateCommentStruct]
  · intro x hx
    simp only [DeleteComment, h] at hx
    cases hrb : (a.ReadBodyAndReturnMapBody c.Body).2 <;>
      simp only [hrb, readBodyEvents] at hx <;>
      (repeat' split at hx) <;>
      simp_all [respond, fatal, CreateCommentStruct]
  · intro hv
    exact controller_called_of_valid a clk c k A h hv
  · intro x hx hok
    exact ⟨((CreateComment_after_controller a clk c k x hx).2 hok).1, h1 x hx⟩

/-- Witness for C2: account `A` creates a comment in the sample deployment. -/
theorem controller_comment_account_is_requester_witness :
    (sampleAPI none none).DecodeTokenAndReturnID
        ((sampleRequest "tok-A" [] "hello").Header (sampleAPI none none).JWT_TOKEN_HEADER) =
      ("A", none) ∧
    (CreateComment (sampleAPI none none) sampleClock (sampleRequest "tok-A" [] "hello")
        []).response =
      some ⟨200, .commentResponse
        ⟨"c-1", "A", "p1", ⟨"", false⟩, "hello", "2022-08-01", "2022-08-01", false⟩⟩ :=
  ⟨by decide,
    ((controller_comment_account_is_requester (sampleAPI none none) sampleClock
      (sampleRequest "tok-A" [] "hello") [] "A" (by decide)).2.2.2.2
      ⟨"c-1", "A", "p1", ⟨"", false⟩, "hello", "2022-08-01", "2022-08-01", false⟩
      (by decide) (by decide)).1⟩

/-- C3: when the controller call made by `UpdateComment` or `DeleteComment`
fails with an `UnauthorizedAccountIDError`, the handler answers with status 404
(so not 403) and a body whose `Message` is the text of the error. -/
theorem unauthorized_answers_404 {V K : Type} (a : CommentsAPI V K) (clk : Clock)
    (c : Request) (k : K) (e : GoError) (hk : e.kind = .UnauthorizedAccountIDError) :
    (∀ x v, Event.updateCommentDataByID x ∈ (UpdateComment a clk c k).trace →
      a.UpdateCommentDataByID x = (v, some e) →
      (UpdateComment a clk c k).response = some ⟨404, .message e.text⟩ ∧
      (UpdateComment a clk c k).halted = false) ∧
    (∀ x v, Event.removeCommentByID x ∈ (DeleteComment a clk c k).trace →
      a.RemoveCommentByID x = (v, some e) →
      (DeleteComment a clk c k).response = some ⟨404, .message e.text⟩ ∧
      (DeleteComment a clk c k).halted = false) := by
  constructor
  · intro x v hx hr
    exact ((UpdateComment_after_controller a clk c k x hx).1 v e hr).1 (Or.inl hk)
  · intro x v hx hr
    exact ((DeleteComment_after_controller a clk c k x hx).1 v e hr).1 (Or.inl hk)

/-- Witness for C3: in the sample deployment the controller refuses account `A`
and both handlers answer 404 with the text of the error. -/
theorem unauthorized_answers_404_witness :
    (UpdateComment (sampleAPI (some ⟨.UnauthorizedAccountIDError, "unauthorized account"⟩) none)
        sampleClock (sampleRequest "tok-A" [] "hello") []).response =
      some ⟨404, .message "unauthorized account"⟩ ∧
    (DeleteComment (sampleAPI (some ⟨.UnauthorizedAccountIDError, "unauthorized account"⟩) none)
        sampleClock (sampleRequest "tok-A" [] "hello") []).response =
      some ⟨404, .message "unauthorized account"⟩ :=
  ⟨((unauthorized_answers_404
      (sampleAPI (some ⟨.UnauthorizedAccountIDError, "unauthorized account"⟩) none)
      sampleClock (sampleRequest "tok-A" [] "hello") []
      ⟨.UnauthorizedAccountIDError, "unauthorized account"⟩ rfl).1
      sampleUpdated "updated" (by decide) (by decide)).1,
   ((unauthorized_answers_404
      (sampleAPI (some ⟨.UnauthorizedAccountIDError, "unauthorized account"⟩) none)
      sampleClock (sampleRequest "tok-A" [] "hello") []
      ⟨.UnauthorizedAccountIDError, "unauthorized account"⟩ rfl).2
      sampleRemoved "removed" (by decide) (by decide)).1⟩

/-- C4, as stated, fails: when `UpdateCommentDataByID` returns a
`NotFoundAccountIDError`, `UpdateComment` writes no response at all and halts
the process, and `DeleteComment` does the same with `RemoveCommentByID`. -/
theorem not_found_account_in_update_is_fatal :
    Event.updateCommentDataByID sampleUpdated ∈
      (UpdateComment (sampleAPI (some ⟨.NotFoundAccountIDError, "account not found"⟩) none)
        sampleClock (sampleRequest "tok-A" [] "hello") []).trace ∧
    (sampleAPI (some ⟨.NotFoundAccountIDError, "account not found"⟩) none).UpdateCommentDataByID
        sampleUpdated = ("updated", some ⟨.NotFoundAccountIDError, "account not found"⟩) ∧
    (UpdateComment (sampleAPI (some ⟨.NotFoundAccountIDError, "account not found"⟩) none)
        sampleClock (sampleRequest "tok-A" [] "hello") []).response = none ∧
    (UpdateComment (sampleAPI (some ⟨.NotFoundAccountIDError, "account not found"⟩) none)
        sampleClock (sampleRequest "tok-A" [] "hello") []).halted = true ∧
    (DeleteComment (sampleAPI (some ⟨.NotFoundAccountIDError, "account not found"⟩) none)
        sampleClock (sampleRequest "tok-A" [] "hello") []).response = none ∧
    (DeleteComment (sampleAPI (some ⟨.NotFoundAccountIDError, "account not found"⟩) none)
        sampleClock (sampleRequest "tok-A" [] "hello") []).halted = true := by
  decide

/-- C4, amended: when the controller call made by `CreateComment` or
`GetComment` fails with a `NotFoundAccountIDError`, `NotFoundPostIDError` or
`NotFoundCommentIDError`, and when the controller call made by `UpdateComment`
or `DeleteComment` fails with a `NotFoundCommentIDError`, the handler answers
with status 404 and a body whose `Message` is the text of the error. -/
theorem not_found_answers_404 {V K : Type} (a : CommentsAPI V K) (clk : Clock)
    (c : Request) (k : K) (e : GoError) :
    (e.kind = .NotFoundAccountIDError ∨ e.kind = .NotFoundPostIDError ∨
        e.kind = .NotFoundCommentIDError →
      (∀ x, Event.insertComment x ∈ (CreateComment a clk c k).trace →
        a.InsertComment x = some e →
        (CreateComment a clk c k).response = some ⟨404, .message e.text⟩ ∧
        (CreateComment a clk c k).halted = false) ∧
      (∀ acc idToGet postID commentID page v,
        Event.findCommentsByAccountID acc idToGet postID commentID page ∈
          (GetComment a c k).trace →
        a.FindCommentsByAccountID acc idToGet postID commentID page = (v, some e) →
        (GetComment a c k).response = some ⟨404, .message e.text⟩ ∧
        (GetComment a c k).halted = false)) ∧
    (e.kind = .NotFoundCommentIDError →
      (∀ x v, Event.updateCommentDataByID x ∈ (UpdateComment a clk c k).trace →
        a.UpdateCommentDataByID x = (v, some e) →
        (UpdateComment a clk c k).response = some ⟨404, .message e.text⟩ ∧
        (UpdateComment a clk c k).halted = false) ∧
      (∀ x v, Event.removeCommentByID x ∈ (DeleteComment a clk c k).trace →
        a.RemoveCommentByID x = (v, some e) →
        (DeleteComment a clk c k).response = some ⟨404, .message e.text⟩ ∧
        (DeleteComment a clk c k).halted = false)) := by
  refine ⟨fun hk => ⟨?_, ?_⟩, fun hk => ⟨?_, ?_⟩⟩
  · intro x hx hr
    exact ((CreateComment_after_controller a clk c k x hx).1 e hr).1 hk
  · intro acc idToGet postID commentID page v hx hr
    exact ((GetComment_after_controller a c k acc idToGet postID commentID page hx).1
      v e hr).1 hk
  · intro x v hx hr
    exact ((UpdateComment_after_controller a clk c k x hx).1 v e hr).1 (Or.inr hk)
  · intro x v hx hr
    exact ((DeleteComment_after_controller a clk c k x hx).1 v e hr).1 (Or.inr hk)

/-- Witness for C4, amended: a missing post in `CreateComment` and `GetComment`,
a missing comment in `UpdateComment` and `DeleteComment`, on a cache miss. -/
theorem not_found_answers_404_witness :
    (CreateComment (sampleAPI (some ⟨.NotFoundPostIDError, "post not found"⟩)
        (some ⟨.CacheNotFoundError, "miss"⟩))
        sampleClock (sampleRequest "tok-A" [] "hello") []).response =
      some ⟨404, .message "post not found"⟩ ∧
    (GetComment (sampleAPI (some ⟨.NotFoundPostIDError, "post not found"⟩)
        (some ⟨.CacheNotFoundError, "miss"⟩))
        (sampleRequest "tok-A" [("post_id", "p9")] "") []).response =
      some ⟨404, .message "post not found"⟩ ∧
    (UpdateComment (sampleAPI (some ⟨.NotFoundCommentIDError, "comment not found"⟩) none)
        sampleClock (sampleRequest "tok-A" [] "hello") []).response =
      some ⟨404, .message "comment not found"⟩ ∧
    (DeleteComment (sampleAPI (some ⟨.NotFoundCommentIDError, "comment not found"⟩) none)
        sampleClock (sampleRequest "tok-A" [] "hello") []).response =
      some ⟨404, .message "comment not found"⟩ :=
  ⟨(((not_found_answers_404 (sampleAPI (some ⟨.NotFoundPostIDError, "post not found"⟩)
        (some ⟨.CacheNotFoundError, "miss"⟩))
      sampleClock (sampleRequest "tok-A" [] "hello") []
      ⟨.NotFoundPostIDError, "post not found"⟩).1 (by decide)).1
      sampleCreated (by decide) (by decide)).1,
   (((not_found_answers_404 (sampleAPI (some ⟨.NotFoundPostIDError, "post not found"⟩)
        (some ⟨.CacheNotFoundError, "miss"⟩))
      sampleClock (sampleRequest "tok-A" [("post_id", "p9")] "") []
      ⟨.NotFoundPostIDError, "post not found"⟩).1 (by decide)).2
      "A" "" "p9" "" "1" "comments" (by decide) (by decide)).1,
   (((not_found_answers_404 (sampleAPI (some ⟨.NotFoundCommentIDError, "comment not found"⟩) none)
      sampleClock (sampleRequest "tok-A" [] "hello") []
      ⟨.NotFoundCommentIDError, "comment not found"⟩).2 (by decide)).1
      sampleUpdated "updated" (by decide) (by decide)).1,
   (((not_found_answers_404 (sampleAPI (some ⟨.NotFoundCommentIDError, "comment not found"⟩) none)
      sampleClock (sampleRequest "tok-A" [] "hello") []
      ⟨.NotFoundCommentIDError, "comment not found"⟩).2 (by decide)).2
      sampleRemoved "removed" (by decide) (by decide)).1⟩

/-- C9: in every comment handler, when the controller call fails with an error
of a kind the handler does not recognise (for `CreateComment` and `GetComment`
anything but the three not-found kinds, for `UpdateComment` and `DeleteComment`
anything but `UnauthorizedAccountIDError` and `NotFoundCommentIDError`), the
handler calls `log.Fatal`: the process halts and no response is written. -/
theorem unrecognised_error_is_fatal {V K : Type} (a : CommentsAPI V K) (clk : Clock)
    (c : Request) (k : K) (e : GoError) :
    (e.kind ≠ .NotFoundAccountIDError → e.kind ≠ .NotFoundPostIDError →
        e.kind ≠ .NotFoundCommentIDError →
      (∀ x, Event.insertComment x ∈ (CreateComment a clk c k).trace →
        a.InsertComment x = some e →
        (CreateComment a clk c k).response = none ∧
        (CreateComment a clk c k).halted = true ∧
        Event.logFatal e.text ∈ (CreateComment a clk c k).trace) ∧
      (∀ acc idToGet postID commentID page v,
        Event.findCommentsByAccountID acc idToGet postID commentID page ∈
          (GetComment a c k).trace →
        a.FindCommentsByAccountID acc idToGet postID commentID page = (v, some e) →
        (GetComment a c k).response = none ∧
        (GetComment a c k).halted = true ∧
        Event.logFatal e.text ∈ (GetComment a c k).trace)) ∧
    (e.kind ≠ .UnauthorizedAccountIDError → e.kind ≠ .NotFoundCommentIDError →
      (∀ x v, Event.updateCommentDataByID x ∈ (UpdateComment a clk c k).trace →
        a.UpdateCommentDataByID x = (v, some e) →
        (UpdateComment a clk c k).response = none ∧
        (UpdateComment a clk c k).halted = true ∧
        Event.logFatal e.text ∈ (UpdateComment a clk c k).trace) ∧
      (∀ x v, Event.removeCommentByID x ∈ (DeleteComment a clk c k).trace →
        a.RemoveCommentByID x = (v, some e) →
        (DeleteComment a clk c k).response = none ∧
        (DeleteComment a clk c k).halted = true ∧
        Event.logFatal e.text ∈ (DeleteComment a clk c k).trace)) := by
  refine ⟨fun h1 h2 h3 => ⟨?_, ?_⟩, fun h1 h2 => ⟨?_, ?_⟩⟩
  · intro x hx hr
    exact ((CreateComment_after_controller a clk c k x hx).1 e hr).2 h1 h2 h3
  · intro acc idToGet postID commentID page v hx hr
    exact ((GetComment_after_controller a c k acc idToGet postID commentID page hx).1
      v e hr).2 h1 h2 h3
  · intro x v hx hr
    exact ((UpdateComment_after_controller a clk c k x hx).1 v e hr).2 h1 h2
  · intro x v hx hr
    exact ((DeleteComment_after_controller a clk c k x hx).1 v e hr).2 h1 h2

/-- Witness for C9: the controller of the sample deployment fails with an error
of no repository kind; each handler halts without a response. -/
theorem unrecognised_error_is_fatal_witness :
    ((CreateComment (sampleAPI (some ⟨.other, "connection reset"⟩)
        (some ⟨.CacheNotFoundError, "miss"⟩))
        sampleClock (sampleRequest "tok-A" [] "hello") []).response = none ∧
      (CreateComment (sampleAPI (some ⟨.other, "connection reset"⟩)
        (some ⟨.CacheNotFoundError, "miss"⟩))
        sampleClock (sampleRequest "tok-A" [] "hello") []).halted = true) ∧
    ((GetComment (sampleAPI (some ⟨.other, "connection reset"⟩)
        (some ⟨.CacheNotFoundError, "miss"⟩))
        (sampleRequest "tok-A" [] "") []).response = none ∧
      (GetComment (sampleAPI (some ⟨.other, "connection reset"⟩)
        (some ⟨.CacheNotFoundError, "miss"⟩))
        (sampleRequest "tok-A" [] "") []).halted = true) ∧
    ((UpdateComment (sampleAPI (some ⟨.other, "connection reset"⟩)
        (some ⟨.CacheNotFoundError, "miss"⟩))
        sampleClock (sampleRequest "tok-A" [] "hello") []).response = none ∧
      (UpdateComment (sampleAPI (some ⟨.other, "connection reset"⟩)
        (some ⟨.CacheNotFoundError, "miss"⟩))
        sampleClock (sampleRequest "tok-A" [] "hello") []).halted = true) ∧
    ((DeleteComment (sampleAPI (some ⟨.other, "connection reset"⟩)
        (some ⟨.CacheNotFoundError, "miss"⟩))
        sampleClock (sampleRequest "tok-A" [] "hello") []).response = none ∧
      (DeleteComment (sampleAPI (some ⟨.other, "connection reset"⟩)
        (some ⟨.CacheNotFoundError, "miss"⟩))
        sampleClock (sampleRequest "tok-A" [] "hello") []).halted = true) :=
  ⟨have r := ((unrecognised_error_is_fatal (sampleAPI (some ⟨.other, "connection reset"⟩)
        (some ⟨.CacheNotFoundError, "miss"⟩))
      sampleClock (sampleRequest "tok-A" [] "hello") []
      ⟨.other, "connection reset"⟩).1 (by decide) (by decide) (by decide)).1
      sampleCreated (by decide) (by decide);
    ⟨r.1, r.2.1⟩,
   have r := ((unrecognised_error_is_fatal (sampleAPI (some ⟨.other, "connection reset"⟩)
        (some ⟨.CacheNotFoundError, "miss"⟩))
      sampleClock (sampleRequest "tok-A" [] "") []
      ⟨.other, "connection reset"⟩).1 (by decide) (by decide) (by decide)).2
      "A" "" "" "" "1" "comments" (by decide) (by decide);
    ⟨r.1, r.2.1⟩,
   have r := ((unrecognised_error_is_fatal (sampleAPI (some ⟨.other, "connection reset"⟩)
        (some ⟨.CacheNotFoundError, "miss"⟩))
      sampleClock (sampleRequest "tok-A" [] "hello") []
      ⟨.other, "connection reset"⟩).2 (by decide) (by decide)).1
      sampleUpdated "updated" (by decide) (by decide);
    ⟨r.1, r.2.1⟩,
   have r := ((unrecognised_error_is_fatal (sampleAPI (some ⟨.other, "connection reset"⟩)
        (some ⟨.CacheNotFoundError, "miss"⟩))
      sampleClock (sampleRequest "tok-A" [] "hello") []
      ⟨.other, "connection reset"⟩).2 (by decide) (by decide)).2
      sampleRemoved "removed" (by decide) (by decide);
    ⟨r.1, r.2.1⟩⟩

/-! ### Cache frame -/

/-- C10: `CreateComment`, `UpdateComment` and `DeleteComment` perform no cache
access and leave the cache state as they found it, for every request and
outcome. `GetComment` inserts into the cache only on the path where the token
decodes, the lookup fails with `CacheNotFoundError` and
`FindCommentsByAccountID` then returns without an error, the insertion being
the last effect of that path; on every other path it leaves the cache state as
it found it. -/
theorem cache_written_only_by_get_after_miss {V K : Type} (a : CommentsAPI V K)
    (clk : Clock) (c : Request) (k : K) :
    (∀ out ∈ [CreateComment a clk c k, UpdateComment a clk c k, DeleteComment a clk c k],
      out.cache = k ∧ ∀ e ∈ out.trace, e.isCacheAccess = false) ∧
    (Event.insertCache ∈ (GetComment a c k).trace →
      ∃ A text v,
        a.DecodeTokenAndReturnID (c.Header a.JWT_TOKEN_HEADER) = (A, none) ∧
        (a.FindInCache c k).2 = some ⟨.CacheNotFoundError, text⟩ ∧
        a.FindCommentsByAccountID A (DefaultQuery c "account_id" "")
          (DefaultQuery c "post_id" "") (DefaultQuery c "comment_id" "")
          (DefaultQuery c "page" "1") = (v, none) ∧
        (GetComment a c k).trace =
          [.decodeToken (c.Header a.JWT_TOKEN_HEADER), .findInCache, .logPrintln text,
            .findCommentsByAccountID A (DefaultQuery c "account_id" "")
              (DefaultQuery c "post_id" "") (DefaultQuery c "comment_id" "")
              (DefaultQuery c "page" "1"),
            .insertCache] ∧
        (GetComment a c k).cache = a.InsertCache c v k) ∧
    (Event.insertCache ∉ (GetComment a c k).trace → (GetComment a c k).cache = k) := by
  refine ⟨?_, ?_, ?_⟩
  · intro out hout
    simp only [List.mem_cons, List.mem_singleton, List.not_mem_nil, or_false] at hout
    rcases hd : a.DecodeTokenAndReturnID (c.Header a.JWT_TOKEN_HEADER) with ⟨A, _ | e⟩ <;>
      cases hrb : (a.ReadBodyAndReturnMapBody c.Body).2 <;>
      rcases hout with rfl | rfl | rfl <;>
      simp only [CreateComment, UpdateComment, DeleteComment, hd, hrb, readBodyEvents] <;>
      (repeat' split) <;>
      simp [respond, fatal, Event.isCacheAccess]
  · intro hx
    rcases hd : a.DecodeTokenAndReturnID (c.Header a.JWT_TOKEN_HEADER) with ⟨A, _ | e⟩
    · simp only [GetComment, hd] at hx ⊢
      (repeat' split at hx) <;> simp_all [respond, fatal]
    · simp [GetComment, hd, respond] at hx
  · intro hx
    rcases hd : a.DecodeTokenAndReturnID (c.Header a.JWT_TOKEN_HEADER) with ⟨A, _ | e⟩
    · simp only [GetComment, hd] at hx ⊢
      (repeat' split at hx) <;> simp_all [respond, fatal]
    · simp [GetComment, hd, respond]

/-! ### Page validation in `GetComment` -/

/-- When the digit loop succeeds, every byte it read is a decimal digit. -/
theorem parseUintLoop_ok_digits (cs : List Char) (n v : Nat)
    (h : parseUintLoop cs n = .ok v) :
    cs.all (fun d => decide ('0' ≤ d ∧ d ≤ '9')) = true := by
  induction cs generalizing n with
  | nil => rfl
  | cons c cs ih =>
    unfold parseUintLoop at h
    simp only [] at h
    split_ifs at h with hc h1 h2
    simp only [List.all_cons, Bool.and_eq_true, decide_eq_true_eq]
    exact ⟨hc, ih _ h⟩

/-- A string that `ParseInt` accepts is numeric. -/
theorem isNumeric_of_ParseInt_ok (s : String) (v : Int) (h : ParseInt s = .ok v) :
    isNumeric s = true := by
  obtain ⟨l⟩ := s
  unfold ParseInt at h
  unfold isNumeric
  simp only [String.toList] at h ⊢
  cases l with
  | nil => simp [ParseIntChars] at h
  | cons c cs =>
    simp only [ParseIntChars] at h ⊢
    have hb : (c == '+' ∨ c == '-') ↔ (c = '+' ∨ c = '-') := by simp
    simp only [hb] at h
    generalize (if c = '+' ∨ c = '-' then cs else c :: cs) = ds at h ⊢
    cases hu : ParseUint ds with
    | error e => simp [hu] at h
    | ok un =>
      unfold ParseUint at hu
      cases ds with
      | nil => simp at hu
      | cons d ds =>
        simp only at hu
        simp only [List.isEmpty_cons, Bool.not_false, Bool.true_and]
        exact parseUintLoop_ok_digits _ _ _ hu

/-- A page that is not numeric is refused by `ParseInt`. -/
theorem ParseInt_error_of_not_numeric (s : String) (h : isNumeric s = false) :
    ∃ e, ParseInt s = .error e := by
  cases hp : ParseInt s with
  | error e => exact ⟨e, rfl⟩
  | ok v => simp [isNumeric_of_ParseInt_ok s v hp] at h

/-- What `GetComment` does after a decoded token and a lookup that failed with
`CacheNotFoundError`, according to the result of `ParseInt` on the page. -/
theorem GetComment_after_miss {V K : Type} (a : CommentsAPI V K) (c : Request) (k : K)
    (A text : String) (v : V)
    (ht : a.DecodeTokenAndReturnID (c.Header a.JWT_TOKEN_HEADER) = (A, none))
    (hm : a.FindInCache c k = (v, some ⟨.CacheNotFoundError, text⟩)) :
    ((∃ e, ParseInt (DefaultQuery c "page" "1") = .error e) →
      GetComment a c k = respond
        [.decodeToken (c.Header a.JWT_TOKEN_HEADER), .findInCache, .logPrintln text] k 400
        (.message "Page is not a number")) ∧
    ((∃ n, ParseInt (DefaultQuery c "page" "1") = .ok n) →
      Event.findCommentsByAccountID A (DefaultQuery c "account_id" "")
        (DefaultQuery c "post_id" "") (DefaultQuery c "comment_id" "")
        (DefaultQuery c "page" "1") ∈ (GetComment a c k).trace ∧
      ∀ r, (GetComment a c k).response = some r → r.status ≠ 400) := by
  constructor
  · rintro ⟨e, he⟩
    simp [GetComment, ht, hm, he, StatusBadRequest]
  · rintro ⟨n, hn⟩
    simp only [GetComment, ht, hm, hn]
    (repeat' split) <;> simp [respond, fatal, StatusNotFound, StatusOK]

/-- What `GetComment` does after a decoded token and a lookup that did not fail
with `CacheNotFoundError`: the `default` branch of the type switch answers 200
with the result of the lookup, whether the error is nil or not. -/
theorem GetComment_after_lookup_default {V K : Type} (a : CommentsAPI V K) (c : Request)
    (k : K) (A : String) (v : V) (err : Option GoError)
    (ht : a.DecodeTokenAndReturnID (c.Header a.JWT_TOKEN_HEADER) = (A, none))
    (hl : a.FindInCache c k = (v, err))
    (hk : ∀ e, err = some e → e.kind ≠ .CacheNotFoundError) :
    GetComment a c k = respond
      [.decodeToken (c.Header a.JWT_TOKEN_HEADER), .findInCache, .logPrintln "Cache"] k 200
      (.value v) := by
  rcases err with _ | ⟨kind, text⟩
  · simp [GetComment, ht, hl, StatusOK]
  · have hne : kind ≠ .CacheNotFoundError := hk ⟨kind, text⟩ rfl
    cases kind <;> simp_all [GetComment, StatusOK]

/-- C5, as stated, fails: with the non-numeric page `abc`, `GetComment` looks
the request up in the cache before it validates the page, and the answer
depends on the lookup: 400 after a miss, 200 with the cached payload after a
hit. -/
theorem non_numeric_page_after_cache_lookup :
    isNumeric "abc" = false ∧
    (GetComment (sampleAPI none (some ⟨.CacheNotFoundError, "miss"⟩))
        (sampleRequest "tok-A" [("page", "abc")] "") []).trace =
      [.decodeToken "tok-A", .findInCache, .logPrintln "miss"] ∧
    (GetComment (sampleAPI none (some ⟨.CacheNotFoundError, "miss"⟩))
        (sampleRequest "tok-A" [("page", "abc")] "") []).response =
      some ⟨400, .message "Page is not a number"⟩ ∧
    (GetComment (sampleAPI none none)
        (sampleRequest "tok-A" [("page", "abc")] "") []).response =
      some ⟨200, .value "cached-page"⟩ := by
  decide

/-- C5, amended: for every `GetComment` request with a decoded token whose page
is not numeric and whose cache lookup fails with `CacheNotFoundError`, the
answer is 400 with `Message: Page is not a number`; the effects performed are
the token decoding, the cache lookup and the log line of the miss, so no
controller call happens and the cache is left as it was. -/
theorem non_numeric_page_rejected_after_miss {V K : Type} (a : CommentsAPI V K)
    (c : Request) (k : K) (A text : String) (v : V)
    (ht : a.DecodeTokenAndReturnID (c.Header a.JWT_TOKEN_HEADER) = (A, none))
    (hm : a.FindInCache c k = (v, some ⟨.CacheNotFoundError, text⟩))
    (hp : isNumeric (DefaultQuery c "page" "1") = false) :
    (GetComment a c k).response = some ⟨400, .message "Page is not a number"⟩ ∧
    (GetComment a c k).halted = false ∧
    (GetComment a c k).trace =
      [.decodeToken (c.Header a.JWT_TOKEN_HEADER), .findInCache, .logPrintln text] ∧
    (∀ e ∈ (GetComment a c k).trace, e.isControllerCall = false) ∧
    (GetComment a c k).cache = k := by
  rw [(GetComment_after_miss a c k A text v ht hm).1 (ParseInt_error_of_not_numeric _ hp)]
  simp [respond, Event.isControllerCall]

/-- Witness for C5, amended: the page `abc` after a miss in the sample
deployment. -/
theorem non_numeric_page_rejected_after_miss_witness :
    (GetComment (sampleAPI none (some ⟨.CacheNotFoundError, "miss"⟩))
        (sampleRequest "tok-A" [("page", "abc")] "") []).response =
      some ⟨400, .message "Page is not a number"⟩ :=
  (non_numeric_page_rejected_after_miss (sampleAPI none (some ⟨.CacheNotFoundError, "miss"⟩))
    (sampleRequest "tok-A" [("page", "abc")] "") [] "A" "miss" ""
    (by decide) (by decide) (by decide)).1

/-- C6, as stated, fails: the pages `0` and `-3` are not positive integers, yet
after a miss `GetComment` passes them to `FindCommentsByAccountID` and answers
200. -/
theorem page_zero_and_negative_accepted :
    ParseInt "0" = .ok 0 ∧
    Event.findCommentsByAccountID "A" "" "" "" "0" ∈
      (GetComment (sampleAPI none (some ⟨.CacheNotFoundError, "miss"⟩))
        (sampleRequest "tok-A" [("page", "0")] "") []).trace ∧
    (GetComment (sampleAPI none (some ⟨.CacheNotFoundError, "miss"⟩))
        (sampleRequest "tok-A" [("page", "0")] "") []).response =
      some ⟨200, .value "comments"⟩ ∧
    ParseInt "-3" = .ok (-3) ∧
    Event.findCommentsByAccountID "A" "" "" "" "-3" ∈
      (GetComment (sampleAPI none (some ⟨.CacheNotFoundError, "miss"⟩))
        (sampleRequest "tok-A" [("page", "-3")] "") []).trace ∧
    (GetComment (sampleAPI none (some ⟨.CacheNotFoundError, "miss"⟩))
        (sampleRequest "tok-A" [("page", "-3")] "") []).response =
      some ⟨200, .value "comments"⟩ :=
  ⟨rfl, by decide, by decide, rfl, by decide, by decide⟩

/-- C6, amended: after a decoded token and a cache miss, `GetComment` accepts a
page exactly when `strconv.ParseInt(page, 10, 64)` succeeds. A page that
`ParseInt` refuses is answered 400 with `Message: Page is not a number` and
`FindCommentsByAccountID` is not called; a page that `ParseInt` accepts, which
is then numeric, is passed unchanged to `FindCommentsByAccountID` and the answer
is not a 400; a query without a `page` key makes the page `1`, which is
accepted. -/
theorem page_accepted_iff_ParseInt_ok {V K : Type} (a : CommentsAPI V K)
    (c : Request) (k : K) (A text : String) (v : V)
    (ht : a.DecodeTokenAndReturnID (c.Header a.JWT_TOKEN_HEADER) = (A, none))
    (hm : a.FindInCache c k = (v, some ⟨.CacheNotFoundError, text⟩)) :
    ((∃ e, ParseInt (DefaultQuery c "page" "1") = .error e) →
      (GetComment a c k).response = some ⟨400, .message "Page is not a number"⟩ ∧
      ∀ e ∈ (GetComment a c k).trace, e.isControllerCall = false) ∧
    ((∃ n, ParseInt (DefaultQuery c "page" "1") = .ok n) →
      isNumeric (DefaultQuery c "page" "1") = true ∧
      Event.findCommentsByAccountID A (DefaultQuery c "account_id" "")
        (DefaultQuery c "post_id" "") (DefaultQuery c "comment_id" "")
        (DefaultQuery c "page" "1") ∈ (GetComment a c k).trace ∧
      ∀ r, (GetComment a c k).response = some r → r.status ≠ 400) ∧
    (c.Query.lookup "page" = none →
      DefaultQuery c "page" "1" = "1" ∧
      Event.findCommentsByAccountID A (DefaultQuery c "account_id" "")
        (DefaultQuery c "post_id" "") (DefaultQuery c "comment_id" "") "1" ∈
        (GetComment a c k).trace) := by
  have hmiss := GetComment_after_miss a c k A text v ht hm
  refine ⟨?_, ?_, ?_⟩
  · intro he
    rw [hmiss.1 he]
    simp [respond, Event.isControllerCall]
  · rintro ⟨n, hn⟩
    exact ⟨isNumeric_of_ParseInt_ok _ n hn, hmiss.2 ⟨n, hn⟩⟩
  · intro hq
    have hd : DefaultQuery c "page" "1" = "1" := by simp [DefaultQuery, hq]
    refine ⟨hd, ?_⟩
    have h1 : ParseInt "1" = .ok 1 := rfl
    have := (hmiss.2 ⟨1, by rw [hd]; exact h1⟩).1
    rw [hd] at this
    exact this

/-- Witness for C6, amended: in the sample deployment the page `x1` is refused
and a request without a page reaches the controller with page `1`. -/
theorem page_accepted_iff_ParseInt_ok_witness :
    (GetComment (sampleAPI none (some ⟨.CacheNotFoundError, "miss"⟩))
        (sampleRequest "tok-A" [("page", "x1")] "") []).response =
      some ⟨400, .message "Page is not a number"⟩ ∧
    Event.findCommentsByAccountID "A" "" "" "" "1" ∈
      (GetComment (sampleAPI none (some ⟨.CacheNotFoundError, "miss"⟩))
        (sampleRequest "tok-A" [] "") []).trace :=
  ⟨((page_accepted_iff_ParseInt_ok (sampleAPI none (some ⟨.CacheNotFoundError, "miss"⟩))
      (sampleRequest "tok-A" [("page", "x1")] "") [] "A" "miss" ""
      (by decide) (by decide)).1 ⟨.ErrSyntax, rfl⟩).1,
   ((page_accepted_iff_ParseInt_ok (sampleAPI none (some ⟨.CacheNotFoundError, "miss"⟩))
      (sampleRequest "tok-A" [] "") [] "A" "miss" ""
      (by decide) (by decide)).2.2 (by decide)).2⟩

/-- C7: evaluation of `GetComment` where the claim fails. The cache lookup
fails with an error that is not a `CacheNotFoundError` (a refused connection);
the `default` branch of the type switch answers 200 with the empty lookup
result, and neither the page validation nor the controller runs. -/
theorem cache_failure_answered_as_hit :
    (sampleAPI none (some ⟨.other, "dial tcp: connection refused"⟩)).FindInCache
        (sampleRequest "tok-A" [] "") [] =
      ("", some ⟨.other, "dial tcp: connection refused"⟩) ∧
    (GetComment (sampleAPI none (some ⟨.other, "dial tcp: connection refused"⟩))
        (sampleRequest "tok-A" [] "") []).response = some ⟨200, .value ""⟩ ∧
    (GetComment (sampleAPI none (some ⟨.other, "dial tcp: connection refused"⟩))
        (sampleRequest "tok-A" [] "") []).trace =
      [.decodeToken "tok-A", .findInCache, .logPrintln "Cache"] ∧
    (GetComment (sampleAPI none (some ⟨.CacheNotFoundError, "miss"⟩))
        (sampleRequest "tok-A" [] "") []).response = some ⟨200, .value "comments"⟩ ∧
    Event.findCommentsByAccountID "A" "" "" "" "1" ∈
      (GetComment (sampleAPI none (some ⟨.CacheNotFoundError, "miss"⟩))
        (sampleRequest "tok-A" [] "") []).trace := by
  decide

/-! ### The dynamic update query -/

/-- The length of a concatenation is the sum of the lengths. -/
theorem len_append (s t : String) : len (s ++ t) = len s + len t := by
  obtain ⟨cs⟩ := s
  obtain ⟨ct⟩ := t
  show String.utf8ByteSize ⟨cs ++ ct⟩ = String.utf8ByteSize ⟨cs⟩ + String.utf8ByteSize ⟨ct⟩
  simp only [String.utf8ByteSize_mk, String.utf8Len_append]

/-- The length of what the writing loop of `strings.Join` builds. -/
theorem len_foldl_join (rest : List String) (sep e : String) :
    len (rest.foldl (fun b s => b ++ sep ++ s) e) =
      len e + (rest.map (fun s => len sep + len s)).sum := by
  induction rest generalizing e with
  | nil => simp
  | cons r rest ih =>
    simp only [List.foldl_cons, List.map_cons, List.sum_cons]
    rw [ih, len_append, len_append]
    omega

/-- The length of a join, counting one separator per element. -/
theorem len_Join_add (elems : List String) (sep : String) (h : elems ≠ []) :
    len (Join elems sep) + len sep = (elems.map (fun s => len s + len sep)).sum := by
  cases elems with
  | nil => exact absurd rfl h
  | cons e rest =>
    simp only [Join, List.map_cons, List.sum_cons]
    rw [len_foldl_join]
    have : (rest.map (fun s => len sep + len s)).sum =
        (rest.map (fun s => len s + len sep)).sum := by
      congr 1
      apply List.map_congr_left
      intro s _
      omega
    omega

/-- The length of a join does not depend on the order of the elements. -/
theorem len_Join_perm (l₁ l₂ : List String) (sep : String) (h : l₁.Perm l₂) :
    len (Join l₁ sep) = len (Join l₂ sep) := by
  by_cases h1 : l₁ = []
  · subst h1
    rw [List.Perm.nil_eq h]
  · have h2 : l₂ ≠ [] := by
      intro h2
      subst h2
      exact h1 (List.Perm.eq_nil h)
    have e1 := len_Join_add l₁ sep h1
    have e2 := len_Join_add l₂ sep h2
    have := (List.Perm.map (fun s => len s + len sep) h).sum_eq
    omega

/-- The loop of the test that appends to `where` builds the list of the
assignments of the entries, in order. -/
theorem foldl_append_assignment (l : List (String × String)) (acc : List String) :
    l.foldl (fun acc kv => acc ++ [assignment kv.1 kv.2]) acc =
      acc ++ l.map (fun kv => assignment kv.1 kv.2) := by
  induction l generalizing acc with
  | nil => simp
  | cons x l ih => simp [ih]

/-- C8: for every mapping, with `mapBody` its entries in the order the function
iterates and `order` the same entries in the order the test iterates, the
statement `dinamicQueryChangeAccountDataByID` returns is `UPDATE account SET`
followed by one assignment per entry, in iteration order and joined by a comma
and a blank, followed by ` WHERE id = $1 AND deleted = false`; so its length is
the length of the expected string of the test, whatever the two orders. -/
theorem dinamicQuery_fields_scope_and_length (mapBody order : List (String × String))
    (h : order.Perm mapBody) :
    dinamicQueryChangeAccountDataByID mapBody =
      "UPDATE account SET " ++ Join (mapBody.map (fun kv => assignment kv.1 kv.2)) ", " ++
        " WHERE id = $1 AND deleted = false" ∧
    (mapBody.map (fun kv => assignment kv.1 kv.2)).length = mapBody.length ∧
    len (dinamicQueryChangeAccountDataByID mapBody) = len (stringQueryExpected order) := by
  refine ⟨rfl, by simp, ?_⟩
  simp only [dinamicQueryChangeAccountDataByID, stringQueryExpected, len_append,
    foldl_append_assignment, List.nil_append]
  rw [len_Join_perm _ _ ", " (List.Perm.map _ h.symm)]

set_option maxRecDepth 100000 in
/-- Witness for C8: the mapping of the repository test, iterated by the function
in reverse of the order in which the test iterates it; both strings have 284
bytes. -/
theorem dinamicQuery_fields_scope_and_length_witness :
    len (dinamicQueryChangeAccountDataByID body.reverse) = len (stringQueryExpected body) ∧
    len (stringQueryExpected body) = 284 :=
  ⟨(dinamicQuery_fields_scope_and_length body.reverse body (List.reverse_perm body).symm).2.2,
    by decide⟩

end SocialNetwork
